import Mathlib

/-
Verification development for the FaceDetection repository.

The repository holds two independent Python scripts:
  * `file_upload.py`: a Streamlit form that multipart-uploads image files to an
    S3 bucket (`multipart_upload`), generates pre-signed URLs
    (`generate_presigned_url`), and renders an HTML gallery page
    (`create_preview_html`, `upload_multiple_images_to_s3`).
  * `face_detection.py`: a straight-line script calling DeepFace verify/find and
    drawing a rectangle with OpenCV.

The external world (boto3 S3 client, DeepFace, the local filesystem contents) is
modelled by explicit environment structures; each S3 call consumes the response
the environment assigns to it, which is either a value or a raised exception
(`Except`).  The functions produce a trace of the calls they perform, so that
ordering, error-handling and cleanup properties can be stated.
-/

namespace FaceDetection

/-! ## Python string helpers

Models of the Python `str` operations used in `file_upload.py` line 22:
`str.lower` lowercases each character (ASCII range suffices for the
extension test) and `str.endswith` is a suffix test. -/

/-- Model of Python `str.lower` (per-character lowercasing). -/
def pyLower (s : String) : String := String.mk (s.data.map Char.toLower)

/-- Model of Python `s.endswith(suffix)`. -/
def pyEndsWith (s suffix : String) : Bool := List.isSuffixOf suffix.data s.data

/-- Case-insensitive suffix test, as the spec phrases it: both sides lowered. -/
def endsWithCaseInsensitive (s suffix : String) : Bool :=
  pyEndsWith (pyLower s) (pyLower suffix)

/-! ## S3 interaction model -/

/-- A part descriptor as built on `file_upload.py` line 37:
`{'ETag': part_response['ETag'], 'PartNumber': part_number}`. -/
structure Part where
  etag : String
  partNumber : Nat
  deriving DecidableEq

/-- One event per call the upload script performs.  Events record the request
data (and, for `presign`, the returned value), in the order the calls happen.
`writeLocal` / `removeLocal` are the local-filesystem effects (`open(..,"wb")`
/ `open(..,"w")` and `os.remove`). -/
inductive Ev where
  | createMU (bucket key contentType : String)
  | uploadPart (bucket key : String) (partNumber : Nat) (body : List Nat)
  | completeMU (bucket key : String) (parts : List Part)
  | abortMU (bucket key uploadId : String)
  | logError (msg : String)
  | presign (bucket key : String) (expiresIn : Nat) (result : Option String)
  | uploadFileEv (localPath bucket key contentType content : String)
  | writeLocal (path : String)
  | removeLocal (path : String)
  deriving DecidableEq

/-- Whether an `Except` result models a raised exception. -/
def isErr {α : Type} : Except String α → Bool
  | Except.error _ => true
  | Except.ok _ => false

instance {α β : Type} [DecidableEq α] [DecidableEq β] : DecidableEq (Except α β) :=
  fun x y =>
    match x, y with
    | Except.error a, Except.error b =>
        if h : a = b then Decidable.isTrue (congrArg Except.error h)
        else Decidable.isFalse (fun hc => h (Except.error.inj hc))
    | Except.ok a, Except.ok b =>
        if h : a = b then Decidable.isTrue (congrArg Except.ok h)
        else Decidable.isFalse (fun hc => h (Except.ok.inj hc))
    | Except.error _, Except.ok _ => Decidable.isFalse (fun hc => Except.noConfusion hc)
    | Except.ok _, Except.error _ => Decidable.isFalse (fun hc => Except.noConfusion hc)

/-- The S3 responses for one file's multipart upload: each boto3 call either
returns (`ok`) or raises (`error` carries the exception text). -/
structure S3FileEnv where
  createResult : Except String String
  partResult : Nat → Except String String
  completeResult : Except String Unit
  abortResult : Except String Unit

/-- The external world for one run of `upload_multiple_images_to_s3`:
per-file S3 responses (indexed by position in the submitted list), the
pre-signed-URL responses per object key (an `error` models the `ClientError`
that `generate_presigned_url` catches), the response of the
`upload_file` call for the gallery page, and the `uuid.uuid4()` output. -/
structure S3Env where
  fileEnv : Nat → S3FileEnv
  presignResult : String → Except String String
  galleryUpload : Except String Unit
  sessionId : String

/-- `chunk_size = 5 * 1024 * 1024` from `file_upload.py` line 27. -/
def chunk_size : Nat := 5 * 1024 * 1024

/-- The successive `file.read(chunk_size)` results (line 29), with a fuel
argument to make the recursion structural; `readChunks` supplies fuel equal to
the file length, which is enough because each step consumes at least one byte
of a nonempty file. -/
def readChunksAux : Nat → List Nat → List (List Nat)
  | _, [] => []
  | 0, _ :: _ => []
  | fuel + 1, b :: rest =>
      (b :: rest).take chunk_size :: readChunksAux fuel ((b :: rest).drop chunk_size)

/-- The list of chunks `iter(lambda: file.read(chunk_size), b'')` yields for a
file with the given bytes. -/
def readChunks (content : List Nat) : List (List Nat) :=
  readChunksAux content.length content

/-- The `ContentType` chosen on `file_upload.py` line 22. -/
def contentTypeFor (objectName : String) : String :=
  if pyEndsWith (pyLower objectName) ".jpg" || pyEndsWith (pyLower objectName) ".jpeg" then
    "image/jpeg"
  else
    "image/png"

/-- The part-upload loop of `multipart_upload` (lines 29-37): uploads the
chunks with part numbers counting up from `n`, collecting the part
descriptors, and stops at the first call that raises.  Returns the events, the
collected descriptors, and the raised exception if any. -/
def uploadParts (fe : S3FileEnv) (bucket key : String) :
    List (List Nat) → Nat → List Ev × List Part × Option String
  | [], _ => ([], [], none)
  | c :: cs, n =>
      match fe.partResult n with
      | Except.error e => ([Ev.uploadPart bucket key n c], [], some e)
      | Except.ok etag =>
          let rest := uploadParts fe bucket key cs (n + 1)
          (Ev.uploadPart bucket key n c :: rest.1, ⟨etag, n⟩ :: rest.2.1, rest.2.2)

/-- The `except` block of `multipart_upload` (lines 48-52): print the error,
abort the multipart upload if `upload_id` is in `locals()` (i.e. if
`create_multipart_upload` returned), then `return None`.  If the abort call
itself raises, that exception propagates out of `multipart_upload`. -/
def handleErr (fe : S3FileEnv) (bucket key objectName : String)
    (uploadId : Option String) (e : String) : List Ev × Except String (Option String) :=
  let logEv := Ev.logError ("Error uploading " ++ objectName ++ ": " ++ e)
  match uploadId with
  | none => ([logEv], Except.ok none)
  | some uid =>
      match fe.abortResult with
      | Except.error e2 => ([logEv, Ev.abortMU bucket key uid], Except.error e2)
      | Except.ok _ => ([logEv, Ev.abortMU bucket key uid], Except.ok none)

/-- `multipart_upload` (`file_upload.py` lines 15-52).  Returns the trace of
calls performed together with the Python outcome: `ok (some key)` for a normal
return of the object path, `ok none` for the `return None` of the handler, and
`error` when an exception escapes the function (only possible from the abort
call inside the handler). -/
def multipart_upload (fe : S3FileEnv) (bucket folder objectName : String)
    (content : List Nat) : List Ev × Except String (Option String) :=
  let key := folder ++ "/" ++ objectName
  let createEv := Ev.createMU bucket key (contentTypeFor objectName)
  match fe.createResult with
  | Except.error e =>
      let h := handleErr fe bucket key objectName none e
      (createEv :: h.1, h.2)
  | Except.ok uid =>
      let up := uploadParts fe bucket key (readChunks content) 1
      match up.2.2 with
      | some e =>
          let h := handleErr fe bucket key objectName (some uid) e
          (createEv :: up.1 ++ h.1, h.2)
      | none =>
          match fe.completeResult with
          | Except.error e =>
              let h := handleErr fe bucket key objectName (some uid) e
              (createEv :: up.1 ++ [Ev.completeMU bucket key up.2.1] ++ h.1, h.2)
          | Except.ok _ =>
              (createEv :: up.1 ++ [Ev.completeMU bucket key up.2.1],
               Except.ok (some key))

/-- `generate_presigned_url` (lines 56-67).  The Python default
`expiration=3600` is passed explicitly by the callers here.  A `ClientError`
is caught, logged and turned into `None`. -/
def generate_presigned_url (env : S3Env) (bucket objectName : String)
    (expiration : Nat) : List Ev × Option String :=
  match env.presignResult objectName with
  | Except.ok url => ([Ev.presign bucket objectName expiration (some url)], some url)
  | Except.error e =>
      ([Ev.presign bucket objectName expiration none,
        Ev.logError ("Error generating pre-signed URL: " ++ e)], none)

/-! ## Gallery HTML (`create_preview_html`, lines 70-141)

Literal braces of the Python source appear as `\x7b` / `\x7d` escapes. -/

/-- The initial `html_content` string (lines 72-109). -/
def htmlHead : String :=
  "<!DOCTYPE html>\n<html lang=\"en\">\n<head>\n    <meta charset=\"UTF-8\">\n    <meta name=\"viewport\" content=\"width=device-width, initial-scale=1.0\">\n    <title>Image Gallery</title>\n    <style>\n        body \x7b font-family: Arial, sans-serif; text-align: center; \x7d\n        h2 \x7b color: #333; \x7d\n        .gallery \x7b display: flex; flex-wrap: wrap; justify-content: center; gap: 20px; \x7d\n        .image-container \x7b\n            display: flex;\n            flex-direction: column;\n            align-items: center;\n            border: 1px solid #ddd;\n            padding: 10px;\n            border-radius: 10px;\n            box-shadow: 0px 4px 6px rgba(0, 0, 0, 0.2);\n            background: #fff;\n        \x7d\n        .gallery img \x7b width: 200px; height: auto; border-radius: 10px; cursor: pointer; \x7d\n        .btn-group \x7b margin-top: 10px; display: flex; gap: 10px; \x7d\n        .btn \x7b\n            padding: 8px 15px;\n            border: none;\n            border-radius: 5px;\n            cursor: pointer;\n            font-size: 14px;\n        \x7d\n        .view-btn \x7b background: #007bff; color: white; text-decoration: none; \x7d\n        .download-btn \x7b background: #28a745; color: white; text-decoration: none; \x7d\n        .btn:hover \x7b opacity: 0.8; \x7d\n    </style>\n</head>\n<body>\n    <h2>Uploaded Images</h2>\n    <div class=\"gallery\">\n"

/-- The block appended for each link (the f-string of lines 112-122). -/
def imageEntry (link : String) : String :=
  "\n        <div class=\"image-container\">\n            <a href=\"" ++ link ++
  "\" target=\"_blank\">\n                <img src=\"" ++ link ++
  "\" alt=\"Uploaded Image\">\n            </a>\n            <div class=\"btn-group\">\n                <a href=\"" ++
  link ++ "\" target=\"_blank\" class=\"btn view-btn\">🔍 View</a>\n                <a href=\"" ++
  link ++ "\" download class=\"btn download-btn\">⬇ Download</a>\n            </div>\n        </div>\n        "

/-- The closing fragment appended after the loop (lines 124-128). -/
def htmlFoot : String :=
  "\n    </div>\n</body>\n</html>\n"

/-- The full `html_content` written to `gallery.html` (head, one entry per
link in order, foot). -/
def galleryHtml (imageLinks : List String) : String :=
  imageLinks.foldl (fun acc link => acc ++ imageEntry link) htmlHead ++ htmlFoot

/-- `create_preview_html` (lines 70-141): writes `gallery.html` locally,
uploads it to `<folder>/gallery.html` with `ContentType: text/html`, removes
the local file and returns the S3 key.  The function has no exception
handling, so if the `upload_file` call raises, the exception propagates
and the local removal never happens. -/
def create_preview_html (env : S3Env) (imageLinks : List String)
    (bucket folder : String) : List Ev × Except String String :=
  let htmlFileName := folder ++ "/gallery.html"
  let content := galleryHtml imageLinks
  match env.galleryUpload with
  | Except.error e =>
      ([Ev.writeLocal "gallery.html",
        Ev.uploadFileEv "gallery.html" bucket htmlFileName "text/html" content],
       Except.error e)
  | Except.ok _ =>
      ([Ev.writeLocal "gallery.html",
        Ev.uploadFileEv "gallery.html" bucket htmlFileName "text/html" content,
        Ev.removeLocal "gallery.html"],
       Except.ok htmlFileName)

/-! ## `upload_multiple_images_to_s3` (lines 144-167) -/

/-- A submitted file: its `file.name` and the bytes `file.read()` returns. -/
structure UploadedFile where
  name : String
  content : List Nat
  deriving DecidableEq

/-- One iteration of the `for file in files` loop (lines 150-161): write the
bytes to the local path `file.name`, multipart-upload that copy, on success
generate a pre-signed URL and append it to `image_links` when it is not
`None`, then remove the local copy.  If `multipart_upload` itself raises
(abort failure), the exception propagates before `os.remove` runs. -/
def processFile (env : S3Env) (bucket folder : String) (i : Nat)
    (file : UploadedFile) (links : List String) :
    List Ev × List String × Except String Unit :=
  let m := multipart_upload (env.fileEnv i) bucket folder file.name file.content
  match m.2 with
  | Except.error e => (Ev.writeLocal file.name :: m.1, links, Except.error e)
  | Except.ok none =>
      (Ev.writeLocal file.name :: m.1 ++ [Ev.removeLocal file.name], links, Except.ok ())
  | Except.ok (some objectPath) =>
      let p := generate_presigned_url env bucket objectPath 3600
      let links' := match p.2 with
        | some url => links ++ [url]
        | none => links
      (Ev.writeLocal file.name :: m.1 ++ p.1 ++ [Ev.removeLocal file.name],
       links', Except.ok ())

/-- The whole `for file in files` loop, threading the per-file index and the
accumulated `image_links`; stops early when an iteration raises. -/
def uploadLoop (env : S3Env) (bucket folder : String) :
    List UploadedFile → Nat → List String → List Ev × List String × Except String Unit
  | [], _, links => ([], links, Except.ok ())
  | f :: fs, i, links =>
      let step := processFile env bucket folder i f links
      match step.2.2 with
      | Except.error e => (step.1, step.2.1, Except.error e)
      | Except.ok _ =>
          let rest := uploadLoop env bucket folder fs (i + 1) step.2.1
          (step.1 ++ rest.1, rest.2)

/-- `upload_multiple_images_to_s3` (lines 144-167): pick the session folder
`uploads/<uuid4>`, run the per-file loop, then create and upload the preview
HTML and return its pre-signed URL (`ok none` models returning Python `None`
when the final presign fails; `error` models an escaped exception). -/
def upload_multiple_images_to_s3 (env : S3Env) (files : List UploadedFile)
    (bucket : String) : List Ev × Except String (Option String) :=
  let folder := "uploads/" ++ env.sessionId
  let loop := uploadLoop env bucket folder files 0 []
  match loop.2.2 with
  | Except.error e => (loop.1, Except.error e)
  | Except.ok _ =>
      let g := create_preview_html env loop.2.1 bucket folder
      match g.2 with
      | Except.error e => (loop.1 ++ g.1, Except.error e)
      | Except.ok htmlObjectPath =>
          let p := generate_presigned_url env bucket htmlObjectPath 3600
          (loop.1 ++ g.1 ++ p.1, Except.ok p.2)

/-- Python truthiness of a string (`if gallery_link:`): nonempty. -/
def pyTruthyStr (s : String) : Bool := !(s == "")

/-- The Streamlit branch on the returned gallery link (lines 183-188): the
success message is shown exactly when the returned value is truthy. -/
def streamlitReport (galleryLink : Option String) : Bool :=
  match galleryLink with
  | some s => pyTruthyStr s
  | none => false

/-! ## Fully-successful environments

`okFileEnv` / `okEnv` describe a run in which every S3 call returns normally,
with the returned upload ids, ETags and URLs given by the parameter
functions. -/

/-- Per-file S3 responses in which no call raises. -/
def okFileEnv (uid : String) (etag : Nat → String) : S3FileEnv :=
  ⟨Except.ok uid, fun n => Except.ok (etag n), Except.ok (), Except.ok ()⟩

/-- An environment in which every S3 call returns normally. -/
def okEnv (sid : String) (uidF : Nat → String) (etagF : Nat → Nat → String)
    (urlF : String → String) : S3Env :=
  ⟨fun i => okFileEnv (uidF i) (etagF i), fun k => Except.ok (urlF k),
   Except.ok (), sid⟩

/-- The call sequence one file produces under a fully successful
environment. -/
def okFileTrace (bucket folder : String) (etag : Nat → String)
    (urlF : String → String) (f : UploadedFile) : List Ev :=
  let key := folder ++ "/" ++ f.name
  let chunks := readChunks f.content
  Ev.writeLocal f.name
    :: Ev.createMU bucket key (contentTypeFor f.name)
    :: List.zipWith (fun j c => Ev.uploadPart bucket key j c)
        (List.range' 1 chunks.length) chunks
    ++ [Ev.completeMU bucket key
          ((List.range' 1 chunks.length).map fun j => ⟨etag j, j⟩),
        Ev.presign bucket key 3600 (some (urlF key)),
        Ev.removeLocal f.name]

/-- The call sequence the gallery page produces under a fully successful
environment. -/
def okGalleryTrace (bucket folder : String) (links : List String)
    (urlF : String → String) : List Ev :=
  [Ev.writeLocal "gallery.html",
   Ev.uploadFileEv "gallery.html" bucket (folder ++ "/gallery.html") "text/html"
     (galleryHtml links),
   Ev.removeLocal "gallery.html",
   Ev.presign bucket (folder ++ "/gallery.html") 3600
     (some (urlF (folder ++ "/gallery.html")))]

/-! ## Derived notions used by the claims -/

/-- Whether the execution of the first pass of `multipart_upload` (create,
part uploads, complete) raises an exception for this file. -/
def partsErr (fe : S3FileEnv) : List (List Nat) → Nat → Option String
  | [], _ => none
  | _ :: cs, n =>
      match fe.partResult n with
      | Except.error e => some e
      | Except.ok _ => partsErr fe cs (n + 1)

/-- `multipartRaises fe content = true` iff running `multipart_upload` on a
file with these bytes under responses `fe` raises an exception somewhere in
the `try` block (so the `except` handler runs). -/
def multipartRaises (fe : S3FileEnv) (content : List Nat) : Bool :=
  isErr fe.createResult || (partsErr fe (readChunks content) 1).isSome ||
    isErr fe.completeResult

/-- Effect of one event on the set of local files (paths present in the
working directory): `open(.., "w"/"wb")` creates the path, `os.remove`
deletes it, every other call leaves the local filesystem unchanged. -/
def applyEv (fs : List String) : Ev → List String
  | Ev.writeLocal p => fs.insert p
  | Ev.removeLocal p => fs.erase p
  | _ => fs

/-- The local files present after running a trace from initial state `fs`. -/
def runFs (fs : List String) (evs : List Ev) : List String := evs.foldl applyEv fs

/-- Recognizer for pre-signed-URL generation events. -/
def isPresignEv : Ev → Bool
  | Ev.presign _ _ _ _ => true
  | _ => false

/-- Recognizer for part-upload events. -/
def isUploadPartEv : Ev → Bool
  | Ev.uploadPart _ _ _ _ => true
  | _ => false

/-! ## The face-detection script (`face_detection.py`)

DeepFace and OpenCV are external; the environment provides the verify
results.  The script is straight-line: two `DeepFace.verify` calls, prints,
`cv2.imread`, `cv2.rectangle`, `cv2_imshow`, one `DeepFace.find` call. -/

/-- A facial area as reported by DeepFace: the dict
`\x7b'x': .., 'y': .., 'w': .., 'h': ..\x7d`, whose `.values()` are unpacked
in this order on line 8 of `face_detection.py`. -/
structure FacialArea where
  x : Nat
  y : Nat
  w : Nat
  h : Nat
  deriving DecidableEq

/-- The `facial_areas` entry of a DeepFace verify result. -/
structure FacialAreas where
  img1 : FacialArea
  img2 : FacialArea
  deriving DecidableEq

/-- The parts of a DeepFace verify result the script uses. -/
structure VerifyOut where
  facial_areas : FacialAreas

/-- External behaviour of DeepFace for one run of the script. -/
structure FaceEnv where
  verify : String → String → VerifyOut

/-- Events of the face script, in call order.  `printOut` events carry a tag
naming what is printed; `rectangleCall` records the two corner points, the
colour and the thickness passed to `cv2.rectangle`. -/
inductive FaceEv where
  | verifyCall (img1Path img2Path : String)
  | printOut (tag : String)
  | imreadCall (path : String)
  | rectangleCall (corner1 corner2 : Nat × Nat) (color : Nat × Nat × Nat)
      (thickness : Nat)
  | imshowCall
  | findCall (imgPath dbPath : String)
  deriving DecidableEq

/-- The module body of `face_detection.py` (lines 5-16). -/
def face_detection_script (env : FaceEnv) : List FaceEv :=
  let out1 := env.verify "/content/modi1.jpg" "/content/modi2.jpg"
  let a := out1.facial_areas.img1
  [FaceEv.verifyCall "/content/modi1.jpg" "/content/modi2.jpg",
   FaceEv.verifyCall "/content/modi1.jpg" "/content/trump.jpg",
   FaceEv.printOut "out1 OUT 1",
   FaceEv.printOut "x y w h",
   FaceEv.imreadCall "/content/modi1.jpg",
   FaceEv.rectangleCall (a.x, a.y) (a.x + a.w, a.y + a.h) (0, 0, 255) 3,
   FaceEv.imshowCall,
   FaceEv.findCall "/content/modi1.jpg" "/content/fold",
   FaceEv.printOut "out3[0]"]

/-! ## Chunking lemmas -/

theorem chunk_size_pos : 0 < chunk_size := by decide

theorem readChunksAux_nil (fuel : Nat) : readChunksAux fuel [] = [] := by
  cases fuel <;> rfl

theorem readChunksAux_flatten :
    ∀ (fuel : Nat) (c : List Nat), c.length ≤ fuel → (readChunksAux fuel c).flatten = c := by
  intro fuel
  induction fuel with
  | zero =>
      intro c hc
      have : c = [] := List.eq_nil_of_length_eq_zero (Nat.le_zero.mp hc)
      subst this
      rfl
  | succ f ih =>
      intro c hc
      cases c with
      | nil => rfl
      | cons b rest =>
          have hlen : ((b :: rest).drop chunk_size).length ≤ f := by
            have := chunk_size_pos
            simp only [List.length_drop, List.length_cons] at *
            omega
          simp only [readChunksAux, List.flatten_cons, ih _ hlen, List.take_append_drop]

theorem readChunksAux_length :
    ∀ (fuel : Nat) (c : List Nat), c.length ≤ fuel →
      (readChunksAux fuel c).length = (c.length + chunk_size - 1) / chunk_size := by
  intro fuel
  induction fuel with
  | zero =>
      intro c hc
      have : c = [] := List.eq_nil_of_length_eq_zero (Nat.le_zero.mp hc)
      subst this
      simp only [readChunksAux, List.length_nil, Nat.zero_add]
      exact (Nat.div_eq_of_lt (by have := chunk_size_pos; omega)).symm
  | succ f ih =>
      intro c hc
      cases c with
      | nil =>
          simp only [readChunksAux, List.length_nil, Nat.zero_add]
          exact (Nat.div_eq_of_lt (by have := chunk_size_pos; omega)).symm
      | cons b rest =>
          have hcs := chunk_size_pos
          have hlen : ((b :: rest).drop chunk_size).length ≤ f := by
            simp only [List.length_drop, List.length_cons] at *
            omega
          simp only [readChunksAux, List.length_cons, ih _ hlen, List.length_drop]
          rcases le_or_lt (rest.length + 1) chunk_size with hle | hlt
          · have h1 : rest.length + 1 - chunk_size = 0 := by omega
            have h2 : (0 + chunk_size - 1) / chunk_size = 0 :=
              Nat.div_eq_of_lt (by omega)
            have h3 : (rest.length + 1 + chunk_size - 1) / chunk_size = 1 :=
              Nat.div_eq_of_lt_le (by omega) (by omega)
            rw [h1, h2, h3]
          · have h1 : rest.length + 1 - chunk_size + chunk_size - 1 = rest.length := by
              omega
            have h2 : rest.length + 1 + chunk_size - 1 = rest.length + chunk_size := by
              omega
            rw [h1, h2, Nat.add_div_right _ hcs]

theorem readChunksAux_get :
    ∀ (fuel : Nat) (c : List Nat), c.length ≤ fuel →
      ∀ (i : Nat) (h : i < (readChunksAux fuel c).length),
        ((readChunksAux fuel c).get ⟨i, h⟩).length =
          min chunk_size (c.length - i * chunk_size) := by
  intro fuel
  induction fuel with
  | zero =>
      intro c hc
      have : c = [] := List.eq_nil_of_length_eq_zero (Nat.le_zero.mp hc)
      subst this
      intro i h
      simp [readChunksAux] at h
  | succ f ih =>
      intro c hc
      cases c with
      | nil =>
          intro i h
          simp [readChunksAux] at h
      | cons b rest =>
          have hlen : ((b :: rest).drop chunk_size).length ≤ f := by
            have := chunk_size_pos
            simp only [List.length_drop, List.length_cons] at *
            omega
          intro i h
          cases i with
          | zero =>
              simp only [readChunksAux, List.get]
              simp [List.length_take, Nat.zero_mul]
          | succ i =>
              have h2 : i < (readChunksAux f ((b :: rest).drop chunk_size)).length := by
                simpa [readChunksAux] using h
              have := ih _ hlen i h2
              simp only [readChunksAux, List.get] at *
              rw [this]
              congr 1
              simp only [List.length_drop, List.length_cons]
              have : (i + 1) * chunk_size = i * chunk_size + chunk_size := by
                rw [Nat.succ_mul]
              omega

/-- The chunks of a file concatenate back to the file content: the loop reads
the whole file. -/
theorem readChunks_flatten (c : List Nat) : (readChunks c).flatten = c :=
  readChunksAux_flatten c.length c le_rfl

/-- The number of chunks is `ceil(length / chunk_size)`. -/
theorem readChunks_length (c : List Nat) :
    (readChunks c).length = (c.length + chunk_size - 1) / chunk_size :=
  readChunksAux_length c.length c le_rfl

/-- Each chunk has size `chunk_size`, except that the final one holds
whatever remains. -/
theorem readChunks_get (c : List Nat) (i : Nat) (h : i < (readChunks c).length) :
    ((readChunks c).get ⟨i, h⟩).length = min chunk_size (c.length - i * chunk_size) :=
  readChunksAux_get c.length c le_rfl i h

/-! ## Behaviour under a fully successful environment -/

theorem okFileEnv_createResult (uid : String) (etag : Nat → String) :
    (okFileEnv uid etag).createResult = Except.ok uid := rfl

theorem okFileEnv_partResult (uid : String) (etag : Nat → String) (n : Nat) :
    (okFileEnv uid etag).partResult n = Except.ok (etag n) := rfl

theorem okFileEnv_completeResult (uid : String) (etag : Nat → String) :
    (okFileEnv uid etag).completeResult = Except.ok () := rfl

theorem okFileEnv_abortResult (uid : String) (etag : Nat → String) :
    (okFileEnv uid etag).abortResult = Except.ok () := rfl

theorem okEnv_fileEnv (sid : String) (uidF : Nat → String)
    (etagF : Nat → Nat → String) (urlF : String → String) (i : Nat) :
    (okEnv sid uidF etagF urlF).fileEnv i = okFileEnv (uidF i) (etagF i) := rfl

theorem okEnv_presignResult (sid : String) (uidF : Nat → String)
    (etagF : Nat → Nat → String) (urlF : String → String) (k : String) :
    (okEnv sid uidF etagF urlF).presignResult k = Except.ok (urlF k) := rfl

theorem okEnv_galleryUpload (sid : String) (uidF : Nat → String)
    (etagF : Nat → Nat → String) (urlF : String → String) :
    (okEnv sid uidF etagF urlF).galleryUpload = Except.ok () := rfl

theorem okEnv_sessionId (sid : String) (uidF : Nat → String)
    (etagF : Nat → Nat → String) (urlF : String → String) :
    (okEnv sid uidF etagF urlF).sessionId = sid := rfl

theorem uploadParts_ok (uid : String) (etag : Nat → String) (bucket key : String) :
    ∀ (chunks : List (List Nat)) (n : Nat),
      uploadParts (okFileEnv uid etag) bucket key chunks n =
        (List.zipWith (fun j c => Ev.uploadPart bucket key j c)
           (List.range' n chunks.length) chunks,
         (List.range' n chunks.length).map (fun j => Part.mk (etag j) j), none) := by
  intro chunks
  induction chunks with
  | nil => intro n; rfl
  | cons c cs ih =>
      intro n
      simp only [uploadParts, okFileEnv_partResult]
      rw [ih (n + 1)]
      simp only [List.length_cons, List.range'_succ, List.zipWith_cons_cons, List.map_cons]

theorem multipart_upload_ok (uid : String) (etag : Nat → String)
    (bucket folder objectName : String) (content : List Nat) :
    multipart_upload (okFileEnv uid etag) bucket folder objectName content =
      (Ev.createMU bucket (folder ++ "/" ++ objectName) (contentTypeFor objectName)
         :: List.zipWith
              (fun j c => Ev.uploadPart bucket (folder ++ "/" ++ objectName) j c)
              (List.range' 1 (readChunks content).length) (readChunks content)
         ++ [Ev.completeMU bucket (folder ++ "/" ++ objectName)
               ((List.range' 1 (readChunks content).length).map
                 (fun j => Part.mk (etag j) j))],
       Except.ok (some (folder ++ "/" ++ objectName))) := by
  simp only [multipart_upload, okFileEnv_createResult, okFileEnv_completeResult,
    uploadParts_ok]

theorem processFile_ok (sid : String) (uidF : Nat → String)
    (etagF : Nat → Nat → String) (urlF : String → String)
    (bucket folder : String) (i : Nat) (f : UploadedFile) (links : List String) :
    processFile (okEnv sid uidF etagF urlF) bucket folder i f links =
      (okFileTrace bucket folder (etagF i) urlF f,
       links ++ [urlF (folder ++ "/" ++ f.name)], Except.ok ()) := by
  simp only [processFile, okEnv_fileEnv, multipart_upload_ok, generate_presigned_url,
    okEnv_presignResult, okFileTrace, List.cons_append, List.append_assoc,
    List.singleton_append, List.nil_append]

theorem uploadLoop_ok (sid : String) (uidF : Nat → String)
    (etagF : Nat → Nat → String) (urlF : String → String) (bucket folder : String) :
    ∀ (files : List UploadedFile) (i : Nat) (links : List String),
      uploadLoop (okEnv sid uidF etagF urlF) bucket folder files i links =
        (((files.enumFrom i).map
            (fun p => okFileTrace bucket folder (etagF p.1) urlF p.2)).flatten,
         links ++ files.map (fun f => urlF (folder ++ "/" ++ f.name)),
         Except.ok ()) := by
  intro files
  induction files with
  | nil => intro i links; simp [uploadLoop]
  | cons f fs ih =>
      intro i links
      simp only [uploadLoop, processFile_ok, ih (i + 1), List.enumFrom_cons,
        List.map_cons, List.flatten_cons, List.map, List.append_assoc,
        List.cons_append, List.singleton_append, List.nil_append]

/-- The complete trace and result of `upload_multiple_images_to_s3` when every
external call succeeds. -/
theorem upload_multiple_ok (sid : String) (uidF : Nat → String)
    (etagF : Nat → Nat → String) (urlF : String → String)
    (files : List UploadedFile) (bucket : String) :
    upload_multiple_images_to_s3 (okEnv sid uidF etagF urlF) files bucket =
      ((files.enum.map
          (fun p => okFileTrace bucket ("uploads/" ++ sid) (etagF p.1) urlF p.2)).flatten
         ++ okGalleryTrace bucket ("uploads/" ++ sid)
              (files.map (fun f => urlF ("uploads/" ++ sid ++ "/" ++ f.name))) urlF,
       Except.ok (some (urlF ("uploads/" ++ sid ++ "/gallery.html")))) := by
  simp only [upload_multiple_images_to_s3, okEnv_sessionId, uploadLoop_ok,
    create_preview_html, okEnv_galleryUpload, generate_presigned_url,
    okEnv_presignResult, okGalleryTrace, List.enum, List.nil_append,
    List.append_assoc, List.cons_append, List.singleton_append, String.append_assoc]

/-! ## Counting and membership helpers -/

theorem countP_presign_zipWith (bucket key : String) :
    ∀ (l1 : List Nat) (l2 : List (List Nat)),
      (List.zipWith (fun j c => Ev.uploadPart bucket key j c) l1 l2).countP
          isPresignEv = 0 := by
  intro l1
  induction l1 with
  | nil => intro l2; rfl
  | cons a l ih =>
      intro l2
      cases l2 with
      | nil => rfl
      | cons b bs =>
          simp [List.zipWith_cons_cons, List.countP_cons, isPresignEv, ih bs]

theorem countP_presign_okFileTrace (bucket folder : String) (etag : Nat → String)
    (urlF : String → String) (f : UploadedFile) :
    (okFileTrace bucket folder etag urlF f).countP isPresignEv = 1 := by
  simp [okFileTrace, List.countP_cons, List.countP_append, isPresignEv,
    countP_presign_zipWith]

theorem sum_map_one {α : Type} (l : List α) : (l.map (fun _ => 1)).sum = l.length := by
  induction l with
  | nil => rfl
  | cons a l ih => simp [ih, Nat.add_comm]

theorem presign_mem_okFileTrace (bucket folder : String) (etag : Nat → String)
    (urlF : String → String) (f : UploadedFile) :
    Ev.presign bucket (folder ++ "/" ++ f.name) 3600
        (some (urlF (folder ++ "/" ++ f.name))) ∈
      okFileTrace bucket folder etag urlF f := by
  simp [okFileTrace, List.mem_cons, List.mem_append]

theorem createMU_mem_okFileTrace (bucket folder : String) (etag : Nat → String)
    (urlF : String → String) (f : UploadedFile) :
    Ev.createMU bucket (folder ++ "/" ++ f.name) (contentTypeFor f.name) ∈
      okFileTrace bucket folder etag urlF f := by
  simp [okFileTrace, List.mem_cons, List.mem_append]

/-- Find a file's per-file trace inside the joined ok-trace. -/
theorem okFileTrace_sub_flatten (bucket folder : String)
    (etagF : Nat → Nat → String) (urlF : String → String)
    (files : List UploadedFile) (f : UploadedFile) (hf : f ∈ files) (ev : Ev)
    (hev : ∀ i : Nat, ev ∈ okFileTrace bucket folder (etagF i) urlF f) :
    ev ∈ (files.enum.map
        (fun p => okFileTrace bucket folder (etagF p.1) urlF p.2)).flatten := by
  have hf2 : f ∈ files.enum.map Prod.snd := by rw [List.enum_map_snd]; exact hf
  obtain ⟨p, hp, hpf⟩ := List.mem_map.mp hf2
  refine List.mem_flatten.mpr ⟨okFileTrace bucket folder (etagF p.1) urlF p.2, ?_, ?_⟩
  · exact List.mem_map.mpr ⟨p, hp, rfl⟩
  · rw [hpf]; exact hev p.1

/-! ## Claim C2 -/

/-- The full conclusion of claim C2: the number, sizes and concatenation of the
chunks, and the exact call sequence of a successful `multipart_upload`,
including the part descriptors passed to `complete_multipart_upload`. -/
def C2Statement (uid : String) (etag : Nat → String)
    (bucket folder objectName : String) (content : List Nat) : Prop :=
  (readChunks content).length = (content.length + chunk_size - 1) / chunk_size ∧
  (readChunks content).flatten = content ∧
  (∀ (i : Nat) (h : i < (readChunks content).length),
      ((readChunks content).get ⟨i, h⟩).length =
        if i + 1 = (readChunks content).length then
          content.length - i * chunk_size
        else chunk_size) ∧
  multipart_upload (okFileEnv uid etag) bucket folder objectName content =
    (Ev.createMU bucket (folder ++ "/" ++ objectName) (contentTypeFor objectName)
       :: List.zipWith
            (fun j c => Ev.uploadPart bucket (folder ++ "/" ++ objectName) j c)
            (List.range' 1 (readChunks content).length) (readChunks content)
       ++ [Ev.completeMU bucket (folder ++ "/" ++ objectName)
             ((List.range' 1 (readChunks content).length).map
               (fun j => Part.mk (etag j) j))],
     Except.ok (some (folder ++ "/" ++ objectName)))

/-- Claim C2: for a nonempty file, `multipart_upload` uploads
`ceil(size / 5MiB)` parts, each of exactly `5 * 1024 * 1024` bytes except the
last which holds the remainder; reading the parts back gives the file; and
`complete_multipart_upload` receives descriptors numbered consecutively
`1, …, n` in upload order, each carrying the ETag returned for that part. -/
theorem c2_chunking (uid : String) (etag : Nat → String)
    (bucket folder objectName : String) (content : List Nat)
    (hpos : 0 < content.length) :
    C2Statement uid etag bucket folder objectName content := by
  have hcs := chunk_size_pos
  have hn := readChunks_length content
  refine ⟨hn, readChunks_flatten content, ?_, multipart_upload_ok uid etag bucket
    folder objectName content⟩
  intro i hilt
  set n := (readChunks content).length with hnd
  have hglen := readChunks_get content i hilt
  have hrw : n = (content.length + chunk_size - 1) / chunk_size := hn
  have ha : content.length + chunk_size - 1 < (n + 1) * chunk_size :=
    (Nat.div_lt_iff_lt_mul hcs).mp (by omega)
  have hb : n * chunk_size ≤ content.length + chunk_size - 1 :=
    (Nat.le_div_iff_mul_le hcs).mp (le_of_eq hrw)
  have hsucc : (n + 1) * chunk_size = n * chunk_size + chunk_size :=
    Nat.succ_mul n chunk_size
  by_cases hcase : i + 1 = n
  · rw [if_pos hcase, hglen]
    have hx : n * chunk_size = i * chunk_size + chunk_size := by
      rw [← hcase, Nat.succ_mul]
    omega
  · rw [if_neg hcase, hglen]
    have hin : i + 1 ≤ n - 1 := by omega
    have h2 : (i + 1) * chunk_size ≤ (n - 1) * chunk_size :=
      Nat.mul_le_mul_right _ hin
    have h3 : (n - 1) * chunk_size = n * chunk_size - 1 * chunk_size :=
      Nat.sub_mul n 1 chunk_size
    have h4 : (i + 1) * chunk_size = i * chunk_size + chunk_size :=
      Nat.succ_mul i chunk_size
    have h5 : 1 * chunk_size = chunk_size := Nat.one_mul chunk_size
    omega

theorem c2_chunking_witness :
    0 < ([7] : List Nat).length ∧
      C2Statement "UID" (fun _ => "ETAG") "bkt" "uploads/sid" "img.jpg" [7] :=
  ⟨by decide, c2_chunking "UID" (fun _ => "ETAG") "bkt" "uploads/sid" "img.jpg" [7]
    (by decide)⟩

/-! ## Claim C7 -/

/-- Claim C7: the face script calls `DeepFace.verify` on the two image pairs,
then draws a rectangle on the first loaded image with corners `(x, y)` and
`(x + w, y + h)` taken from the facial area the first verify call reports for
its first image, then displays the image and calls `DeepFace.find`. -/
theorem c7_face_script (env : FaceEnv) :
    face_detection_script env =
      [FaceEv.verifyCall "/content/modi1.jpg" "/content/modi2.jpg",
       FaceEv.verifyCall "/content/modi1.jpg" "/content/trump.jpg",
       FaceEv.printOut "out1 OUT 1",
       FaceEv.printOut "x y w h",
       FaceEv.imreadCall "/content/modi1.jpg",
       FaceEv.rectangleCall
         ((env.verify "/content/modi1.jpg" "/content/modi2.jpg").facial_areas.img1.x,
          (env.verify "/content/modi1.jpg" "/content/modi2.jpg").facial_areas.img1.y)
         ((env.verify "/content/modi1.jpg" "/content/modi2.jpg").facial_areas.img1.x +
            (env.verify "/content/modi1.jpg" "/content/modi2.jpg").facial_areas.img1.w,
          (env.verify "/content/modi1.jpg" "/content/modi2.jpg").facial_areas.img1.y +
            (env.verify "/content/modi1.jpg" "/content/modi2.jpg").facial_areas.img1.h)
         (0, 0, 255) 3,
       FaceEv.imshowCall,
       FaceEv.findCall "/content/modi1.jpg" "/content/fold",
       FaceEv.printOut "out3[0]"] := rfl

/-! ## Claim C8 -/

/-- Whatever the environment does, the first call `multipart_upload` performs
is `create_multipart_upload` with the content type chosen from the name. -/
theorem multipart_head (fe : S3FileEnv) (bucket folder objectName : String)
    (content : List Nat) :
    (multipart_upload fe bucket folder objectName content).1.head? =
      some (Ev.createMU bucket (folder ++ "/" ++ objectName)
        (contentTypeFor objectName)) := by
  cases hc : fe.createResult with
  | error e => simp [multipart_upload, hc]
  | ok uid =>
      cases hp : (uploadParts fe bucket (folder ++ "/" ++ objectName)
          (readChunks content) 1).2.2 <;>
        cases hcm : fe.completeResult <;>
          simp [multipart_upload, hc, hp, hcm]

/-- Claim C8: `multipart_upload` always starts by calling
`create_multipart_upload`, with `ContentType` `image/jpeg` exactly when the
object name ends case-insensitively in `.jpg` or `.jpeg`, and `image/png`
otherwise — independent of the file's bytes. -/
theorem c8_content_type (fe : S3FileEnv) (bucket folder objectName : String)
    (content other : List Nat) :
    contentTypeFor objectName =
      (if endsWithCaseInsensitive objectName ".jpg" ||
          endsWithCaseInsensitive objectName ".jpeg" then
        "image/jpeg" else "image/png") ∧
    (multipart_upload fe bucket folder objectName content).1.head? =
      some (Ev.createMU bucket (folder ++ "/" ++ objectName)
        (contentTypeFor objectName)) ∧
    (multipart_upload fe bucket folder objectName content).1.head? =
      (multipart_upload fe bucket folder objectName other).1.head? := by
  have h1 : pyLower ".jpg" = ".jpg" := by decide
  have h2 : pyLower ".jpeg" = ".jpeg" := by decide
  refine ⟨?_, ?_, ?_⟩
  · simp only [endsWithCaseInsensitive, h1, h2, contentTypeFor]
  · exact multipart_head fe bucket folder objectName content
  · rw [multipart_head fe bucket folder objectName content,
      multipart_head fe bucket folder objectName other]

/-! ## Claim C9 -/

/-- The conclusion of claim C9: on a zero-byte file no `upload_part` call is
made and `complete_multipart_upload` is invoked with an empty parts list. -/
def C9Statement (fe : S3FileEnv) (bucket folder objectName : String) : Prop :=
  (multipart_upload fe bucket folder objectName []).1.countP isUploadPartEv = 0 ∧
  Ev.completeMU bucket (folder ++ "/" ++ objectName) [] ∈
    (multipart_upload fe bucket folder objectName []).1

/-- Claim C9: for a zero-byte input file, once `create_multipart_upload` has
succeeded, `multipart_upload` makes no `upload_part` call and invokes
`complete_multipart_upload` with an empty parts list. -/
theorem c9_empty_file (fe : S3FileEnv) (bucket folder objectName : String)
    (h : isErr fe.createResult = false) :
    C9Statement fe bucket folder objectName := by
  have hchunks : readChunks ([] : List Nat) = [] := rfl
  cases hc : fe.createResult with
  | error e => rw [hc] at h; simp [isErr] at h
  | ok uid =>
      constructor
      · cases hcomp : fe.completeResult <;>
          cases hab : fe.abortResult <;>
            simp [multipart_upload, hc, hchunks, uploadParts, handleErr, hcomp, hab,
              List.countP_cons, isUploadPartEv]
      · cases hcomp : fe.completeResult <;>
          cases hab : fe.abortResult <;>
            simp [multipart_upload, hc, hchunks, uploadParts, handleErr, hcomp, hab,
              List.mem_cons]

theorem c9_empty_file_witness :
    isErr (okFileEnv "UID" (fun _ => "ETAG")).createResult = false ∧
      C9Statement (okFileEnv "UID" (fun _ => "ETAG")) "bkt" "uploads/sid" "a.png" :=
  ⟨rfl, c9_empty_file (okFileEnv "UID" (fun _ => "ETAG")) "bkt" "uploads/sid" "a.png" rfl⟩

/-! ## Claim C5 -/

/-- Claim C5: when every external call succeeds, the trace of
`upload_multiple_images_to_s3` is exactly: for each file in input order, write
the local copy, multipart-upload it (create, parts, complete), generate its
pre-signed URL, remove the local copy; and only after all files, write the
gallery page, upload it, remove it locally and generate its pre-signed URL. -/
theorem c5_operation_order (sid : String) (uidF : Nat → String)
    (etagF : Nat → Nat → String) (urlF : String → String)
    (files : List UploadedFile) (bucket : String) :
    upload_multiple_images_to_s3 (okEnv sid uidF etagF urlF) files bucket =
      ((files.enum.map
          (fun p => okFileTrace bucket ("uploads/" ++ sid) (etagF p.1) urlF p.2)).flatten
         ++ okGalleryTrace bucket ("uploads/" ++ sid)
              (files.map (fun f => urlF ("uploads/" ++ sid ++ "/" ++ f.name))) urlF,
       Except.ok (some (urlF ("uploads/" ++ sid ++ "/gallery.html")))) :=
  upload_multiple_ok sid uidF etagF urlF files bucket

/-! ## Claim C3 -/

/-- Claim C3: when every external call succeeds, a run over `N` submitted
files generates exactly `N + 1` pre-signed URLs: one per submitted file (for
its object key) plus one for the gallery page, which is also the returned
link. -/
theorem c3_url_counts (sid : String) (uidF : Nat → String)
    (etagF : Nat → Nat → String) (urlF : String → String)
    (files : List UploadedFile) (bucket : String) :
    (upload_multiple_images_to_s3 (okEnv sid uidF etagF urlF) files bucket).2 =
        Except.ok (some (urlF ("uploads/" ++ sid ++ "/gallery.html"))) ∧
    (upload_multiple_images_to_s3 (okEnv sid uidF etagF urlF) files bucket).1.countP
        isPresignEv = files.length + 1 ∧
    (∀ f ∈ files,
        Ev.presign bucket ("uploads/" ++ sid ++ "/" ++ f.name) 3600
            (some (urlF ("uploads/" ++ sid ++ "/" ++ f.name))) ∈
          (upload_multiple_images_to_s3 (okEnv sid uidF etagF urlF) files bucket).1) ∧
    Ev.presign bucket ("uploads/" ++ sid ++ "/gallery.html") 3600
        (some (urlF ("uploads/" ++ sid ++ "/gallery.html"))) ∈
      (upload_multiple_images_to_s3 (okEnv sid uidF etagF urlF) files bucket).1 := by
  have hok := upload_multiple_ok sid uidF etagF urlF files bucket
  refine ⟨?_, ?_, ?_, ?_⟩
  · rw [hok]
  · rw [hok]
    simp only [List.countP_append, List.countP_flatten, List.map_map]
    have hmap : (files.enum.map
        (List.countP isPresignEv ∘ fun p =>
          okFileTrace bucket ("uploads/" ++ sid) (etagF p.1) urlF p.2)) =
        files.enum.map (fun _ => 1) := by
      apply List.map_congr_left
      intro p _
      simp [Function.comp, countP_presign_okFileTrace]
    rw [hmap, sum_map_one, List.enum_length]
    simp [okGalleryTrace, List.countP_cons, isPresignEv]
  · intro f hf
    rw [hok]
    refine List.mem_append.mpr (Or.inl ?_)
    have hassoc : "uploads/" ++ sid ++ "/" ++ f.name =
        ("uploads/" ++ sid) ++ "/" ++ f.name := by
      rw [String.append_assoc]
    rw [hassoc]
    exact okFileTrace_sub_flatten bucket ("uploads/" ++ sid) etagF urlF files f hf _
      (fun i => presign_mem_okFileTrace bucket ("uploads/" ++ sid) (etagF i) urlF f)
  · rw [hok]
    refine List.mem_append.mpr (Or.inr ?_)
    simp [okGalleryTrace, List.mem_cons, String.append_assoc]

/-! ## Event shapes (arbitrary environments) -/

/-- Shape of every event `multipart_upload` can emit: S3 calls addressed to
the given bucket and key, or a console log. -/
def multipartShape (bucket key : String) (ev : Ev) : Prop :=
  match ev with
  | Ev.createMU b k _ => b = bucket ∧ k = key
  | Ev.uploadPart b k _ _ => b = bucket ∧ k = key
  | Ev.completeMU b k _ => b = bucket ∧ k = key
  | Ev.abortMU b k _ => b = bucket ∧ k = key
  | Ev.logError _ => True
  | _ => False

/-- Shape of every event `generate_presigned_url` can emit. -/
def presignShape (ev : Ev) : Prop :=
  match ev with
  | Ev.presign _ _ _ _ => True
  | Ev.logError _ => True
  | _ => False

theorem mem_uploadParts (fe : S3FileEnv) (bucket key : String) :
    ∀ (chunks : List (List Nat)) (n : Nat) (ev : Ev),
      ev ∈ (uploadParts fe bucket key chunks n).1 →
        ∃ j c, ev = Ev.uploadPart bucket key j c := by
  intro chunks
  induction chunks with
  | nil => intro n ev hev; simp [uploadParts] at hev
  | cons c cs ih =>
      intro n ev hev
      cases hp : fe.partResult n with
      | error e =>
          simp [uploadParts, hp] at hev
          exact ⟨n, c, hev⟩
      | ok etag =>
          simp only [uploadParts, hp, List.mem_cons] at hev
          rcases hev with rfl | hev
          · exact ⟨n, c, rfl⟩
          · exact ih (n + 1) ev hev

theorem mem_handleErr (fe : S3FileEnv) (bucket key objectName : String)
    (uploadId : Option String) (e : String) (ev : Ev)
    (hev : ev ∈ (handleErr fe bucket key objectName uploadId e).1) :
    (∃ m, ev = Ev.logError m) ∨ ∃ u, ev = Ev.abortMU bucket key u := by
  cases uploadId with
  | none =>
      simp [handleErr] at hev
      exact Or.inl ⟨_, hev⟩
  | some uid =>
      cases hab : fe.abortResult <;>
        · simp only [handleErr, hab, List.mem_cons, List.not_mem_nil, or_false] at hev
          rcases hev with rfl | rfl
          · exact Or.inl ⟨_, rfl⟩
          · exact Or.inr ⟨uid, rfl⟩

theorem mem_multipart (fe : S3FileEnv) (bucket folder objectName : String)
    (content : List Nat) (ev : Ev)
    (hev : ev ∈ (multipart_upload fe bucket folder objectName content).1) :
    multipartShape bucket (folder ++ "/" ++ objectName) ev := by
  have hlog : ∀ m : String, multipartShape bucket (folder ++ "/" ++ objectName)
      (Ev.logError m) := fun m => trivial
  have hofh : ∀ uploadId e, ev ∈ (handleErr fe bucket (folder ++ "/" ++ objectName)
      objectName uploadId e).1 →
      multipartShape bucket (folder ++ "/" ++ objectName) ev := by
    intro uploadId e hm
    rcases mem_handleErr fe bucket (folder ++ "/" ++ objectName) objectName
        uploadId e ev hm with ⟨m, rfl⟩ | ⟨u, rfl⟩
    · exact hlog m
    · exact ⟨rfl, rfl⟩
  have hofp : ev ∈ (uploadParts fe bucket (folder ++ "/" ++ objectName)
      (readChunks content) 1).1 →
      multipartShape bucket (folder ++ "/" ++ objectName) ev := by
    intro hm
    obtain ⟨j, c, rfl⟩ := mem_uploadParts fe bucket (folder ++ "/" ++ objectName)
      (readChunks content) 1 ev hm
    exact ⟨rfl, rfl⟩
  cases hc : fe.createResult with
  | error e =>
      simp only [multipart_upload, hc, List.mem_cons] at hev
      rcases hev with rfl | hev
      · exact ⟨rfl, rfl⟩
      · exact hofh none e hev
  | ok uid =>
      cases hp : (uploadParts fe bucket (folder ++ "/" ++ objectName)
          (readChunks content) 1).2.2 with
      | some e =>
          simp only [multipart_upload, hc, hp, List.mem_cons, List.mem_append,
            List.mem_singleton, List.nil_append, List.append_nil,
            List.not_mem_nil, or_false, false_or, or_assoc] at hev
          rcases hev with rfl | hev | hev
          · exact ⟨rfl, rfl⟩
          · exact hofp hev
          · exact hofh (some uid) e hev
      | none =>
          cases hcm : fe.completeResult with
          | error e =>
              simp only [multipart_upload, hc, hp, hcm, List.mem_cons,
                List.mem_append, List.mem_singleton, List.nil_append,
                List.append_nil, List.not_mem_nil, or_false, false_or,
                or_assoc] at hev
              rcases hev with rfl | hev | rfl | hev
              · exact ⟨rfl, rfl⟩
              · exact hofp hev
              · exact ⟨rfl, rfl⟩
              · exact hofh (some uid) e hev
          | ok u =>
              simp only [multipart_upload, hc, hp, hcm, List.mem_cons,
                List.mem_append, List.mem_singleton, List.nil_append,
                List.append_nil, List.not_mem_nil, or_false, false_or,
                or_assoc] at hev
              rcases hev with rfl | hev | rfl
              · exact ⟨rfl, rfl⟩
              · exact hofp hev
              · exact ⟨rfl, rfl⟩

theorem mem_presignTrace (env : S3Env) (bucket k : String) (exp : Nat) (ev : Ev)
    (hev : ev ∈ (generate_presigned_url env bucket k exp).1) : presignShape ev := by
  cases hp : env.presignResult k with
  | error e =>
      simp only [generate_presigned_url, hp, List.mem_cons, List.not_mem_nil,
        or_false] at hev
      rcases hev with rfl | rfl <;> trivial
  | ok url =>
      simp only [generate_presigned_url, hp, List.mem_singleton] at hev
      subst hev
      trivial

theorem mem_processFile (env : S3Env) (bucket folder : String) (i : Nat)
    (f : UploadedFile) (links : List String) (ev : Ev)
    (hev : ev ∈ (processFile env bucket folder i f links).1) :
    ev = Ev.writeLocal f.name ∨ ev = Ev.removeLocal f.name ∨
      multipartShape bucket (folder ++ "/" ++ f.name) ev ∨ presignShape ev := by
  have hm := mem_multipart (env.fileEnv i) bucket folder f.name f.content ev
  cases hr : (multipart_upload (env.fileEnv i) bucket folder f.name f.content).2 with
  | error e =>
      simp only [processFile, hr, List.mem_cons, List.mem_append,
        List.mem_singleton, List.nil_append, List.append_nil, List.not_mem_nil,
        or_false, false_or, or_assoc] at hev
      rcases hev with rfl | hev
      · exact Or.inl rfl
      · exact Or.inr (Or.inr (Or.inl (hm hev)))
  | ok o =>
      cases o with
      | none =>
          simp only [processFile, hr, List.mem_cons, List.mem_append,
            List.mem_singleton, List.nil_append, List.append_nil,
            List.not_mem_nil, or_false, false_or, or_assoc] at hev
          rcases hev with rfl | hev | rfl
          · exact Or.inl rfl
          · exact Or.inr (Or.inr (Or.inl (hm hev)))
          · exact Or.inr (Or.inl rfl)
      | some objectPath =>
          simp only [processFile, hr, List.mem_cons, List.mem_append,
            List.mem_singleton, List.nil_append, List.append_nil,
            List.not_mem_nil, or_false, false_or, or_assoc] at hev
          rcases hev with rfl | hev | hev | rfl
          · exact Or.inl rfl
          · exact Or.inr (Or.inr (Or.inl (hm hev)))
          · exact Or.inr (Or.inr (Or.inr
              (mem_presignTrace env bucket objectPath 3600 ev hev)))
          · exact Or.inr (Or.inl rfl)

theorem mem_uploadLoop (env : S3Env) (bucket folder : String) :
    ∀ (files : List UploadedFile) (i : Nat) (links : List String) (ev : Ev),
      ev ∈ (uploadLoop env bucket folder files i links).1 →
        ∃ f ∈ files,
          ev = Ev.writeLocal f.name ∨ ev = Ev.removeLocal f.name ∨
            multipartShape bucket (folder ++ "/" ++ f.name) ev ∨ presignShape ev := by
  intro files
  induction files with
  | nil => intro i links ev hev; simp [uploadLoop] at hev
  | cons f fs ih =>
      intro i links ev hev
      cases hs : (processFile env bucket folder i f links).2.2 with
      | error e =>
          simp only [uploadLoop, hs] at hev
          exact ⟨f, List.mem_cons_self f fs,
            mem_processFile env bucket folder i f links ev hev⟩
      | ok u =>
          simp only [uploadLoop, hs, List.mem_append] at hev
          rcases hev with hev | hev
          · exact ⟨f, List.mem_cons_self f fs,
              mem_processFile env bucket folder i f links ev hev⟩
          · obtain ⟨g, hg, hsh⟩ :=
              ih (i + 1) (processFile env bucket folder i f links).2.1 ev hev
            exact ⟨g, List.mem_cons_of_mem f hg, hsh⟩

theorem mem_createPreview (env : S3Env) (links : List String)
    (bucket folder : String) (ev : Ev)
    (hev : ev ∈ (create_preview_html env links bucket folder).1) :
    ev = Ev.writeLocal "gallery.html" ∨ ev = Ev.removeLocal "gallery.html" ∨
      ∃ cont, ev = Ev.uploadFileEv "gallery.html" bucket (folder ++ "/gallery.html")
        "text/html" cont := by
  cases hg : env.galleryUpload with
  | error e =>
      simp only [create_preview_html, hg, List.mem_cons, List.not_mem_nil,
        or_false] at hev
      rcases hev with rfl | rfl
      · exact Or.inl rfl
      · exact Or.inr (Or.inr ⟨_, rfl⟩)
  | ok u =>
      simp only [create_preview_html, hg, List.mem_cons, List.not_mem_nil,
        or_false] at hev
      rcases hev with rfl | rfl | rfl
      · exact Or.inl rfl
      · exact Or.inr (Or.inr ⟨_, rfl⟩)
      · exact Or.inr (Or.inl rfl)

/-! ## Claim C4 -/

/-- First half of claim C4, for an arbitrary environment: every
`create_multipart_upload` call in a run addresses a key of the form
`uploads/<session-id>/<original-filename>` for one of the submitted files, and
every `upload_file` call addresses `uploads/<session-id>/gallery.html`, where
`<session-id>` is the single `uuid.uuid4()` value of the session. -/
def C4KeysAll (env : S3Env) (files : List UploadedFile) (bucket : String) : Prop :=
  ∀ ev ∈ (upload_multiple_images_to_s3 env files bucket).1,
    (∀ b k ct, ev = Ev.createMU b k ct →
        ∃ f ∈ files, k = "uploads/" ++ env.sessionId ++ "/" ++ f.name) ∧
    (∀ lp b k ct cont, ev = Ev.uploadFileEv lp b k ct cont →
        k = "uploads/" ++ env.sessionId ++ "/gallery.html")

/-- Second half of claim C4: in a fully successful run those calls do happen,
one `create_multipart_upload` per submitted file under the session folder and
one `upload_file` for the gallery page. -/
def C4KeysOk (sid : String) (uidF : Nat → String) (etagF : Nat → Nat → String)
    (urlF : String → String) (files : List UploadedFile) (bucket : String) : Prop :=
  (∀ f ∈ files,
      Ev.createMU bucket ("uploads/" ++ sid ++ "/" ++ f.name) (contentTypeFor f.name) ∈
        (upload_multiple_images_to_s3 (okEnv sid uidF etagF urlF) files bucket).1) ∧
  ∃ cont, Ev.uploadFileEv "gallery.html" bucket ("uploads/" ++ sid ++ "/gallery.html")
      "text/html" cont ∈
    (upload_multiple_images_to_s3 (okEnv sid uidF etagF urlF) files bucket).1

/-- Claim C4: every uploaded image object is stored under
`uploads/<session-id>/<original-filename>` with the session id shared by all
files of the run, and the gallery page under
`uploads/<session-id>/gallery.html` in the same folder.  (`uuid.uuid4()` is
modelled as the environment-supplied `sessionId`; its randomness is outside
the model.) -/
theorem c4_object_keys (env : S3Env) (sid : String) (uidF : Nat → String)
    (etagF : Nat → Nat → String) (urlF : String → String)
    (files : List UploadedFile) (bucket : String) :
    C4KeysAll env files bucket ∧ C4KeysOk sid uidF etagF urlF files bucket := by
  constructor
  · intro ev hev
    have hloop : ev ∈ (uploadLoop env bucket ("uploads/" ++ env.sessionId)
        files 0 []).1 →
        (∀ b k ct, ev = Ev.createMU b k ct →
            ∃ f ∈ files, k = "uploads/" ++ env.sessionId ++ "/" ++ f.name) ∧
        (∀ lp b k ct cont, ev = Ev.uploadFileEv lp b k ct cont →
            k = "uploads/" ++ env.sessionId ++ "/gallery.html") := by
      intro hevl
      obtain ⟨f, hf, hsh⟩ := mem_uploadLoop env bucket ("uploads/" ++ env.sessionId)
        files 0 [] ev hevl
      rcases hsh with rfl | rfl | hsh | hsh
      · exact ⟨fun b k ct h => Ev.noConfusion h, fun lp b k ct cont h => Ev.noConfusion h⟩
      · exact ⟨fun b k ct h => Ev.noConfusion h, fun lp b k ct cont h => Ev.noConfusion h⟩
      · constructor
        · intro b k ct h
          subst h
          simp only [multipartShape] at hsh
          exact ⟨f, hf, hsh.2⟩
        · intro lp b k ct cont h
          subst h
          simp only [multipartShape] at hsh
      · constructor
        · intro b k ct h
          subst h
          simp only [presignShape] at hsh
        · intro lp b k ct cont h
          subst h
          simp only [presignShape] at hsh
    have hgal : ∀ links, ev ∈ (create_preview_html env links bucket
        ("uploads/" ++ env.sessionId)).1 →
        (∀ b k ct, ev = Ev.createMU b k ct →
            ∃ f ∈ files, k = "uploads/" ++ env.sessionId ++ "/" ++ f.name) ∧
        (∀ lp b k ct cont, ev = Ev.uploadFileEv lp b k ct cont →
            k = "uploads/" ++ env.sessionId ++ "/gallery.html") := by
      intro links hevg
      rcases mem_createPreview env links bucket ("uploads/" ++ env.sessionId) ev hevg
        with rfl | rfl | ⟨cont, rfl⟩
      · exact ⟨fun b k ct h => Ev.noConfusion h, fun lp b k ct cont h => Ev.noConfusion h⟩
      · exact ⟨fun b k ct h => Ev.noConfusion h, fun lp b k ct cont h => Ev.noConfusion h⟩
      · constructor
        · intro b k ct h
          exact absurd h (by intro hc; exact Ev.noConfusion hc)
        · intro lp b k ct cont2 h
          injection h with h1 h2 h3 h4 h5
          exact h3.symm
    have hpre : ∀ k2, ev ∈ (generate_presigned_url env bucket k2 3600).1 →
        (∀ b k ct, ev = Ev.createMU b k ct →
            ∃ f ∈ files, k = "uploads/" ++ env.sessionId ++ "/" ++ f.name) ∧
        (∀ lp b k ct cont, ev = Ev.uploadFileEv lp b k ct cont →
            k = "uploads/" ++ env.sessionId ++ "/gallery.html") := by
      intro k2 hevp
      have hsh := mem_presignTrace env bucket k2 3600 ev hevp
      constructor
      · intro b k ct h
        subst h
        simp only [presignShape] at hsh
      · intro lp b k ct cont h
        subst h
        simp only [presignShape] at hsh
    cases hl : (uploadLoop env bucket ("uploads/" ++ env.sessionId) files 0 []).2.2 with
    | error e =>
        simp only [upload_multiple_images_to_s3, hl] at hev
        exact hloop hev
    | ok u =>
        cases hg : (create_preview_html env
            (uploadLoop env bucket ("uploads/" ++ env.sessionId) files 0 []).2.1
            bucket ("uploads/" ++ env.sessionId)).2 with
        | error e =>
            simp only [upload_multiple_images_to_s3, hl, hg, List.mem_append] at hev
            rcases hev with hev | hev
            · exact hloop hev
            · exact hgal _ hev
        | ok htmlPath =>
            simp only [upload_multiple_images_to_s3, hl, hg, List.mem_append,
              or_assoc] at hev
            rcases hev with hev | hev | hev
            · exact hloop hev
            · exact hgal _ hev
            · exact hpre htmlPath hev
  · constructor
    · intro f hf
      rw [upload_multiple_ok]
      refine List.mem_append.mpr (Or.inl ?_)
      have hassoc : "uploads/" ++ sid ++ "/" ++ f.name =
          ("uploads/" ++ sid) ++ "/" ++ f.name := by
        rw [String.append_assoc]
      rw [hassoc]
      exact okFileTrace_sub_flatten bucket ("uploads/" ++ sid) etagF urlF files f hf _
        (fun i => createMU_mem_okFileTrace bucket ("uploads/" ++ sid) (etagF i) urlF f)
    · refine ⟨galleryHtml (files.map
        (fun f => urlF ("uploads/" ++ sid ++ "/" ++ f.name))), ?_⟩
      rw [upload_multiple_ok]
      refine List.mem_append.mpr (Or.inr ?_)
      simp [okGalleryTrace, List.mem_cons, String.append_assoc]

def sampleFile : UploadedFile := ⟨"a.jpg", [7]⟩

def sampleUrlF : String → String := fun k => "https://" ++ k

theorem c4_object_keys_witness :
    C4KeysAll (okEnv "sid" (fun _ => "UID") (fun _ _ => "E") sampleUrlF)
        [sampleFile] "bkt" ∧
      C4KeysOk "sid" (fun _ => "UID") (fun _ _ => "E") sampleUrlF [sampleFile] "bkt" :=
  c4_object_keys (okEnv "sid" (fun _ => "UID") (fun _ _ => "E") sampleUrlF)
    "sid" (fun _ => "UID") (fun _ _ => "E") sampleUrlF [sampleFile] "bkt"

/-! ## Claim C1 -/

theorem uploadParts_err_eq (fe : S3FileEnv) (bucket key : String) :
    ∀ (chunks : List (List Nat)) (n : Nat),
      (uploadParts fe bucket key chunks n).2.2 = partsErr fe chunks n := by
  intro chunks
  induction chunks with
  | nil => intro n; rfl
  | cons c cs ih =>
      intro n
      cases hp : fe.partResult n <;> simp [uploadParts, partsErr, hp, ih]

/-- What `multipart_upload` does when its `try` block raises and the abort
call succeeds: the exception is caught, `None` is returned, the error is
logged, and `abort_multipart_upload` is called exactly when
`create_multipart_upload` had succeeded. -/
theorem multipart_raise_behavior (fe : S3FileEnv) (bucket folder objectName : String)
    (content : List Nat) (h1 : multipartRaises fe content = true)
    (h2 : fe.abortResult = Except.ok ()) :
    (multipart_upload fe bucket folder objectName content).2 = Except.ok none ∧
    (∃ msg, Ev.logError msg ∈
      (multipart_upload fe bucket folder objectName content).1) ∧
    ((∃ u, Ev.abortMU bucket (folder ++ "/" ++ objectName) u ∈
        (multipart_upload fe bucket folder objectName content).1) ↔
      isErr fe.createResult = false) := by
  cases hc : fe.createResult with
  | error e =>
      refine ⟨by simp [multipart_upload, hc, handleErr], ?_, ?_⟩
      · exact ⟨"Error uploading " ++ objectName ++ ": " ++ e,
          by simp [multipart_upload, hc, handleErr, List.mem_cons]⟩
      · constructor
        · intro ⟨u, hu⟩
          simp [multipart_upload, hc, handleErr, List.mem_cons] at hu
        · intro hfalse
          simp [isErr] at hfalse
  | ok uid =>
      have hup := uploadParts_err_eq fe bucket (folder ++ "/" ++ objectName)
        (readChunks content) 1
      cases hp : partsErr fe (readChunks content) 1 with
      | some e =>
          have hup2 : (uploadParts fe bucket (folder ++ "/" ++ objectName)
              (readChunks content) 1).2.2 = some e := by rw [hup, hp]
          refine ⟨by simp [multipart_upload, hc, hup2, handleErr, h2], ?_, ?_⟩
          · exact ⟨"Error uploading " ++ objectName ++ ": " ++ e,
              by simp [multipart_upload, hc, hup2, handleErr, h2, List.mem_cons,
                List.mem_append]⟩
          · constructor
            · intro _; rfl
            · intro _
              exact ⟨uid, by simp [multipart_upload, hc, hup2, handleErr, h2,
                List.mem_cons, List.mem_append]⟩
      | none =>
          have hcomp : isErr fe.completeResult = true := by
            simp [multipartRaises, hc, hp, isErr] at h1
            exact h1
          cases hcm : fe.completeResult with
          | ok u => rw [hcm] at hcomp; simp [isErr] at hcomp
          | error e =>
              have hup2 : (uploadParts fe bucket (folder ++ "/" ++ objectName)
                  (readChunks content) 1).2.2 = none := by rw [hup, hp]
              refine ⟨by simp [multipart_upload, hc, hup2, hcm, handleErr, h2], ?_, ?_⟩
              · exact ⟨"Error uploading " ++ objectName ++ ": " ++ e,
                  by simp [multipart_upload, hc, hup2, hcm, handleErr, h2,
                    List.mem_cons, List.mem_append]⟩
              · constructor
                · intro _; rfl
                · intro _
                  exact ⟨uid, by simp [multipart_upload, hc, hup2, hcm, handleErr,
                    h2, List.mem_cons, List.mem_append]⟩

/-- The conclusion of the amended claim C1: the per-file exception is caught
(`multipart_upload` returns `None`), it is logged to the console,
`abort_multipart_upload` is called iff `create_multipart_upload` had
succeeded, `image_links` is unchanged, and the loop goes on to process the
remaining files with the same accumulated state. -/
def C1Statement (env : S3Env) (bucket folder : String) (i : Nat)
    (f : UploadedFile) (rest : List UploadedFile) (links : List String) : Prop :=
  (multipart_upload (env.fileEnv i) bucket folder f.name f.content).2 =
      Except.ok none ∧
  (∃ msg, Ev.logError msg ∈
    (multipart_upload (env.fileEnv i) bucket folder f.name f.content).1) ∧
  ((∃ u, Ev.abortMU bucket (folder ++ "/" ++ f.name) u ∈
      (multipart_upload (env.fileEnv i) bucket folder f.name f.content).1) ↔
    isErr (env.fileEnv i).createResult = false) ∧
  (processFile env bucket folder i f links).2.1 = links ∧
  uploadLoop env bucket folder (f :: rest) i links =
    ((processFile env bucket folder i f links).1 ++
       (uploadLoop env bucket folder rest (i + 1) links).1,
     (uploadLoop env bucket folder rest (i + 1) links).2)

/-- Amended claim C1: if an exception is raised inside the `try` block of
`multipart_upload` for a file, **and the abort call itself does not raise**,
then the error is caught inside `multipart_upload` (which returns `None`),
logged to the console, `abort_multipart_upload` is called iff
`create_multipart_upload` had already succeeded, and the enclosing loop in
`upload_multiple_images_to_s3` continues with the next file.  (The proviso is
necessary: see the counterexample, where a raising abort escapes the handler
and stops the loop.) -/
theorem c1_error_handling (env : S3Env) (bucket folder : String) (i : Nat)
    (f : UploadedFile) (rest : List UploadedFile) (links : List String)
    (h1 : multipartRaises (env.fileEnv i) f.content = true)
    (h2 : (env.fileEnv i).abortResult = Except.ok ()) :
    C1Statement env bucket folder i f rest links := by
  obtain ⟨hres, hlog, hiff⟩ :=
    multipart_raise_behavior (env.fileEnv i) bucket folder f.name f.content h1 h2
  have hpf : processFile env bucket folder i f links =
      (Ev.writeLocal f.name ::
         (multipart_upload (env.fileEnv i) bucket folder f.name f.content).1 ++
         [Ev.removeLocal f.name], links, Except.ok ()) := by
    simp [processFile, hres]
  refine ⟨hres, hlog, hiff, by rw [hpf], ?_⟩
  simp only [uploadLoop, hpf]

/-- Concrete single-failure environment: file 0's first `upload_part` raises,
everything else (abort included) succeeds. -/
def c1Env : S3Env :=
  ⟨fun _ => ⟨Except.ok "uid", fun _ => Except.error "partboom", Except.ok (),
     Except.ok ()⟩,
   fun _ => Except.ok "https://u", Except.ok (), "sid"⟩

def c1File : UploadedFile := ⟨"a.png", [0]⟩

theorem c1_error_handling_witness :
    multipartRaises (c1Env.fileEnv 0) c1File.content = true ∧
    (c1Env.fileEnv 0).abortResult = Except.ok () ∧
    C1Statement c1Env "bkt" "uploads/sid" 0 c1File [] [] :=
  ⟨by decide, rfl,
   c1_error_handling c1Env "bkt" "uploads/sid" 0 c1File [] [] (by decide) rfl⟩

/-- Environment refuting claim C1 as stated: for the first file,
`create_multipart_upload` succeeds, the first `upload_part` raises, and the
`abort_multipart_upload` call in the handler raises as well. -/
def c1BadEnv : S3Env :=
  ⟨fun i => if i = 0 then
      ⟨Except.ok "uid", fun _ => Except.error "partboom", Except.error "x",
       Except.error "abortboom"⟩
    else okFileEnv "uid" (fun _ => "e"),
   fun _ => Except.ok "https://u", Except.ok (), "sid"⟩

/-- Counterexample to claim C1 as stated: an exception is raised during the
first file's upload, yet the run of `upload_multiple_images_to_s3` ends with
the abort call's exception escaping (so `multipart_upload` does not return
`None`), and the loop does **not** continue with the next file — no event for
`b.png` (not even its local write) ever happens. -/
theorem c1_counterexample :
    multipartRaises (c1BadEnv.fileEnv 0) [0] = true ∧
    (upload_multiple_images_to_s3 c1BadEnv
        [⟨"a.png", [0]⟩, ⟨"b.png", [0]⟩] "bkt").2 = Except.error "abortboom" ∧
    (upload_multiple_images_to_s3 c1BadEnv
        [⟨"a.png", [0]⟩, ⟨"b.png", [0]⟩] "bkt").1 =
      [Ev.writeLocal "a.png",
       Ev.createMU "bkt" "uploads/sid/a.png" "image/png",
       Ev.uploadPart "bkt" "uploads/sid/a.png" 1 [0],
       Ev.logError "Error uploading a.png: partboom",
       Ev.abortMU "bkt" "uploads/sid/a.png" "uid"] ∧
    Ev.writeLocal "b.png" ∉ (upload_multiple_images_to_s3 c1BadEnv
        [⟨"a.png", [0]⟩, ⟨"b.png", [0]⟩] "bkt").1 := by
  refine ⟨by decide, by decide, ?_, ?_⟩
  · decide
  · have h : (upload_multiple_images_to_s3 c1BadEnv
        [⟨"a.png", [0]⟩, ⟨"b.png", [0]⟩] "bkt").1 =
        [Ev.writeLocal "a.png",
         Ev.createMU "bkt" "uploads/sid/a.png" "image/png",
         Ev.uploadPart "bkt" "uploads/sid/a.png" 1 [0],
         Ev.logError "Error uploading a.png: partboom",
         Ev.abortMU "bkt" "uploads/sid/a.png" "uid"] := by decide
    rw [h]
    decide

/-! ## Claim C6 -/

theorem runFs_append (fs : List String) (evs1 evs2 : List Ev) :
    runFs fs (evs1 ++ evs2) = runFs (runFs fs evs1) evs2 :=
  List.foldl_append applyEv fs evs1 evs2

theorem multipartShape_neutral (bucket key : String) (ev : Ev)
    (h : multipartShape bucket key ev) (fs : List String) : applyEv fs ev = fs := by
  cases ev <;> simp [multipartShape] at h <;> rfl

theorem presignShape_neutral (ev : Ev) (h : presignShape ev) (fs : List String) :
    applyEv fs ev = fs := by
  cases ev <;> simp [presignShape] at h <;> rfl

theorem runFs_multipart (fe : S3FileEnv) (bucket folder objectName : String)
    (content : List Nat) (fs : List String) :
    runFs fs (multipart_upload fe bucket folder objectName content).1 = fs := by
  have h : ∀ (l : List Ev), (∀ ev ∈ l, ∀ fs2, applyEv fs2 ev = fs2) →
      ∀ fs2, runFs fs2 l = fs2 := by
    intro l
    induction l with
    | nil => intro _ _; rfl
    | cons a l ih =>
        intro hl fs2
        have ha := hl a (List.mem_cons_self a l)
        have hrest := ih (fun ev hev => hl ev (List.mem_cons_of_mem a hev))
        simp only [runFs, List.foldl_cons] at *
        rw [ha, hrest]
  exact h _ (fun ev hev fs2 => multipartShape_neutral bucket
    (folder ++ "/" ++ objectName) ev
    (mem_multipart fe bucket folder objectName content ev hev) fs2) fs

theorem runFs_presign (env : S3Env) (bucket k : String) (exp : Nat)
    (fs : List String) : runFs fs (generate_presigned_url env bucket k exp).1 = fs := by
  cases hp : env.presignResult k <;>
    simp [generate_presigned_url, hp, runFs, applyEv]

theorem insert_erase_sub (p : String) (fs : List String) :
    ((fs.insert p).erase p) ⊆ fs := by
  by_cases hp : p ∈ fs
  · rw [List.insert_of_mem hp]
    exact List.erase_subset p fs
  · rw [List.insert_of_not_mem hp, List.erase_cons_head]
    exact fun a ha => ha

theorem multipart_no_raise (fe : S3FileEnv) (bucket folder objectName : String)
    (content : List Nat) (hab : fe.abortResult = Except.ok ()) :
    ∃ o, (multipart_upload fe bucket folder objectName content).2 = Except.ok o := by
  cases hc : fe.createResult with
  | error e => exact ⟨none, by simp [multipart_upload, hc, handleErr]⟩
  | ok uid =>
      cases hp : (uploadParts fe bucket (folder ++ "/" ++ objectName)
          (readChunks content) 1).2.2 with
      | some e => exact ⟨none, by simp [multipart_upload, hc, hp, handleErr, hab]⟩
      | none =>
          cases hcm : fe.completeResult with
          | error e =>
              exact ⟨none, by simp [multipart_upload, hc, hp, hcm, handleErr, hab]⟩
          | ok u =>
              exact ⟨some (folder ++ "/" ++ objectName),
                by simp [multipart_upload, hc, hp, hcm]⟩

theorem runFs_write_multipart (fe : S3FileEnv) (bucket folder objectName : String)
    (content : List Nat) (p : String) (fs : List String) :
    runFs fs (Ev.writeLocal p ::
        (multipart_upload fe bucket folder objectName content).1) =
      fs.insert p :=
  runFs_multipart fe bucket folder objectName content (fs.insert p)

theorem processFile_fs (env : S3Env) (bucket folder : String) (i : Nat)
    (f : UploadedFile) (links : List String)
    (hab : (env.fileEnv i).abortResult = Except.ok ()) (fs : List String) :
    (processFile env bucket folder i f links).2.2 = Except.ok () ∧
    runFs fs (processFile env bucket folder i f links).1 ⊆ fs ∧
    Ev.writeLocal f.name ∈ (processFile env bucket folder i f links).1 := by
  obtain ⟨o, ho⟩ := multipart_no_raise (env.fileEnv i) bucket folder f.name
    f.content hab
  cases o with
  | none =>
      have ht : (processFile env bucket folder i f links).1 =
          (Ev.writeLocal f.name ::
             (multipart_upload (env.fileEnv i) bucket folder f.name f.content).1) ++
            [Ev.removeLocal f.name] := by
        simp [processFile, ho]
      refine ⟨by simp [processFile, ho], ?_, ?_⟩
      · rw [ht, runFs_append, runFs_write_multipart]
        have h3 : runFs (fs.insert f.name) [Ev.removeLocal f.name] =
            (fs.insert f.name).erase f.name := rfl
        rw [h3]
        exact insert_erase_sub f.name fs
      · rw [ht]
        exact List.mem_append.mpr (Or.inl (List.mem_cons_self _ _))
  | some objectPath =>
      have ht : (processFile env bucket folder i f links).1 =
          ((Ev.writeLocal f.name ::
              (multipart_upload (env.fileEnv i) bucket folder f.name f.content).1) ++
             (generate_presigned_url env bucket objectPath 3600).1) ++
            [Ev.removeLocal f.name] := by
        simp [processFile, ho]
      refine ⟨by simp [processFile, ho], ?_, ?_⟩
      · rw [ht, runFs_append, runFs_append, runFs_write_multipart, runFs_presign]
        have h3 : runFs (fs.insert f.name) [Ev.removeLocal f.name] =
            (fs.insert f.name).erase f.name := rfl
        rw [h3]
        exact insert_erase_sub f.name fs
      · rw [ht]
        exact List.mem_append.mpr (Or.inl (List.mem_append.mpr
          (Or.inl (List.mem_cons_self _ _))))

theorem uploadLoop_fs (env : S3Env) (bucket folder : String)
    (hab : ∀ i, (env.fileEnv i).abortResult = Except.ok ()) :
    ∀ (files : List UploadedFile) (i : Nat) (links : List String) (fs : List String),
      (uploadLoop env bucket folder files i links).2.2 = Except.ok () ∧
      runFs fs (uploadLoop env bucket folder files i links).1 ⊆ fs ∧
      ∀ f ∈ files, Ev.writeLocal f.name ∈ (uploadLoop env bucket folder files i links).1 := by
  intro files
  induction files with
  | nil =>
      intro i links fs
      exact ⟨rfl, fun a ha => ha, fun f hf => absurd hf (List.not_mem_nil f)⟩
  | cons f fs2 ih =>
      intro i links fs
      obtain ⟨hres, hsub, hwr⟩ := processFile_fs env bucket folder i f links (hab i) fs
      have hl : uploadLoop env bucket folder (f :: fs2) i links =
          ((processFile env bucket folder i f links).1 ++
             (uploadLoop env bucket folder fs2 (i + 1)
               (processFile env bucket folder i f links).2.1).1,
           (uploadLoop env bucket folder fs2 (i + 1)
             (processFile env bucket folder i f links).2.1).2) := by
        simp only [uploadLoop, hres]
      obtain ⟨ihres, ihsub, ihwr⟩ := ih (i + 1)
        (processFile env bucket folder i f links).2.1 fs
      refine ⟨by rw [hl]; exact ihres, ?_, ?_⟩
      · rw [hl]
        show runFs fs ((processFile env bucket folder i f links).1 ++
          (uploadLoop env bucket folder fs2 (i + 1)
            (processFile env bucket folder i f links).2.1).1) ⊆ fs
        rw [runFs_append]
        obtain ⟨_, ihsub2, _⟩ := ih (i + 1)
          (processFile env bucket folder i f links).2.1
          (runFs fs (processFile env bucket folder i f links).1)
        exact ihsub2.trans hsub
      · intro g hg
        rw [hl]
        rcases List.mem_cons.mp hg with rfl | hg2
        · exact List.mem_append.mpr (Or.inl hwr)
        · exact List.mem_append.mpr (Or.inr (ihwr g hg2))

theorem createPreview_fs (env : S3Env) (links : List String)
    (bucket folder : String) (hg : env.galleryUpload = Except.ok ())
    (fs : List String) :
    (create_preview_html env links bucket folder).2 =
        Except.ok (folder ++ "/gallery.html") ∧
    runFs fs (create_preview_html env links bucket folder).1 ⊆ fs ∧
    Ev.writeLocal "gallery.html" ∈ (create_preview_html env links bucket folder).1 := by
  refine ⟨by simp [create_preview_html, hg], ?_, by simp [create_preview_html, hg]⟩
  have ht : (create_preview_html env links bucket folder).1 =
      [Ev.writeLocal "gallery.html",
       Ev.uploadFileEv "gallery.html" bucket (folder ++ "/gallery.html")
         "text/html" (galleryHtml links),
       Ev.removeLocal "gallery.html"] := by
    simp [create_preview_html, hg]
  rw [ht]
  have h1 : runFs fs [Ev.writeLocal "gallery.html",
      Ev.uploadFileEv "gallery.html" bucket (folder ++ "/gallery.html")
        "text/html" (galleryHtml links),
      Ev.removeLocal "gallery.html"] =
      (fs.insert "gallery.html").erase "gallery.html" := rfl
  rw [h1]
  exact insert_erase_sub "gallery.html" fs

/-- The conclusion of the amended claim C6: the function returns normally, the
final local filesystem contains nothing beyond what was there before the run,
and the per-file temp copies and the local `gallery.html` were really created
during the run (so "removed" is not vacuous). -/
def C6Statement (env : S3Env) (files : List UploadedFile) (bucket : String)
    (fs0 : List String) : Prop :=
  (∃ v, (upload_multiple_images_to_s3 env files bucket).2 = Except.ok v) ∧
  runFs fs0 (upload_multiple_images_to_s3 env files bucket).1 ⊆ fs0 ∧
  (∀ f ∈ files, Ev.writeLocal f.name ∈
    (upload_multiple_images_to_s3 env files bucket).1) ∧
  Ev.writeLocal "gallery.html" ∈ (upload_multiple_images_to_s3 env files bucket).1

/-- Amended claim C6: **provided no `abort_multipart_upload` call raises and
the gallery `upload_file` call does not raise**, no local file persists after
`upload_multiple_images_to_s3` returns: every per-file temp copy and the
locally written `gallery.html` are removed before the function finishes,
regardless of whether the per-file uploads succeeded.  (The provisos are
necessary: the counterexample shows `gallery.html` persisting when its upload
raises, since `create_preview_html` has no exception handling.) -/
theorem c6_local_cleanup (env : S3Env) (files : List UploadedFile)
    (bucket : String) (fs0 : List String)
    (hab : ∀ i, (env.fileEnv i).abortResult = Except.ok ())
    (hg : env.galleryUpload = Except.ok ()) :
    C6Statement env files bucket fs0 := by
  obtain ⟨hres, hsub, hwr⟩ := uploadLoop_fs env bucket ("uploads/" ++ env.sessionId)
    hab files 0 [] fs0
  obtain ⟨gres, gsub, gwr⟩ := createPreview_fs env
    (uploadLoop env bucket ("uploads/" ++ env.sessionId) files 0 []).2.1 bucket
    ("uploads/" ++ env.sessionId) hg fs0
  have ht : upload_multiple_images_to_s3 env files bucket =
      (((uploadLoop env bucket ("uploads/" ++ env.sessionId) files 0 []).1 ++
          (create_preview_html env
            (uploadLoop env bucket ("uploads/" ++ env.sessionId) files 0 []).2.1
            bucket ("uploads/" ++ env.sessionId)).1) ++
        (generate_presigned_url env bucket
          ("uploads/" ++ env.sessionId ++ "/gallery.html") 3600).1,
       Except.ok (generate_presigned_url env bucket
         ("uploads/" ++ env.sessionId ++ "/gallery.html") 3600).2) := by
    simp only [upload_multiple_images_to_s3, hres, gres]
  refine ⟨⟨_, by rw [ht]⟩, ?_, ?_, ?_⟩
  · rw [ht]
    show runFs fs0 _ ⊆ fs0
    rw [runFs_append, runFs_append, runFs_presign]
    obtain ⟨_, gsub2, _⟩ := createPreview_fs env
      (uploadLoop env bucket ("uploads/" ++ env.sessionId) files 0 []).2.1 bucket
      ("uploads/" ++ env.sessionId) hg
      (runFs fs0 (uploadLoop env bucket ("uploads/" ++ env.sessionId) files 0 []).1)
    exact gsub2.trans hsub
  · intro f hf
    rw [ht]
    exact List.mem_append.mpr (Or.inl (List.mem_append.mpr (Or.inl (hwr f hf))))
  · rw [ht]
    exact List.mem_append.mpr (Or.inl (List.mem_append.mpr (Or.inr gwr)))

theorem c6_local_cleanup_witness :
    (∀ i : Nat, ((okEnv "sid" (fun _ => "UID") (fun _ _ => "E")
        sampleUrlF).fileEnv i).abortResult = Except.ok ()) ∧
    (okEnv "sid" (fun _ => "UID") (fun _ _ => "E") sampleUrlF).galleryUpload =
        Except.ok () ∧
    C6Statement (okEnv "sid" (fun _ => "UID") (fun _ _ => "E") sampleUrlF)
      [sampleFile] "bkt" [] :=
  ⟨fun _ => rfl, rfl,
   c6_local_cleanup (okEnv "sid" (fun _ => "UID") (fun _ _ => "E") sampleUrlF)
     [sampleFile] "bkt" [] (fun _ => rfl) rfl⟩

/-- Environment refuting claim C6 as stated: every per-file S3 call succeeds,
but the gallery `upload_file` raises. -/
def c6BadEnv : S3Env :=
  ⟨fun _ => okFileEnv "uid" (fun _ => "e"), fun _ => Except.ok "https://u",
   Except.error "boom", "sid"⟩

/-- Counterexample to claim C6 as stated: with the gallery upload raising,
the run ends by exception and the locally written `gallery.html` is never
removed — starting from an empty working directory, `gallery.html` persists
after the call. -/
theorem c6_counterexample :
    runFs [] (upload_multiple_images_to_s3 c6BadEnv [⟨"a.png", [0]⟩] "bkt").1 =
        ["gallery.html"] ∧
    (upload_multiple_images_to_s3 c6BadEnv [⟨"a.png", [0]⟩] "bkt").2 =
        Except.error "boom" := by
  exact ⟨by decide, by decide⟩

/-! ## Claim C10 -/

theorem loop_create_fail (env : S3Env) (bucket folder : String)
    (h1 : ∀ i, isErr (env.fileEnv i).createResult = true) :
    ∀ (files : List UploadedFile) (i : Nat) (links : List String),
      (uploadLoop env bucket folder files i links).2.1 = links ∧
      (uploadLoop env bucket folder files i links).2.2 = Except.ok () := by
  intro files
  induction files with
  | nil => intro i links; exact ⟨rfl, rfl⟩
  | cons f fs ih =>
      intro i links
      cases hc : (env.fileEnv i).createResult with
      | ok uid => have := h1 i; rw [hc] at this; simp [isErr] at this
      | error e =>
          have hm : (multipart_upload (env.fileEnv i) bucket folder f.name
              f.content).2 = Except.ok none := by
            simp [multipart_upload, hc, handleErr]
          have hpf : (processFile env bucket folder i f links).2 =
              (links, Except.ok ()) := by
            simp [processFile, hm]
          have hpf1 : (processFile env bucket folder i f links).2.1 = links := by
            rw [hpf]
          have hpf2 : (processFile env bucket folder i f links).2.2 =
              Except.ok () := by rw [hpf]
          obtain ⟨ih1, ih2⟩ := ih (i + 1) (processFile env bucket folder i f links).2.1
          constructor
          · show (uploadLoop env bucket folder (f :: fs) i links).2.1 = links
            simp only [uploadLoop, hpf2]
            rw [ih1, hpf1]
          · simp only [uploadLoop, hpf2]
            rw [ih2]

/-- The conclusion of claim C10: the run still returns a pre-signed gallery
link, the uploaded `gallery.html` is rendered from an empty `image_links`
list (head and foot only, no image entries), and the Streamlit UI branch
reports success. -/
def C10Statement (env : S3Env) (files : List UploadedFile) (bucket u : String) :
    Prop :=
  (upload_multiple_images_to_s3 env files bucket).2 = Except.ok (some u) ∧
  Ev.uploadFileEv "gallery.html" bucket
      ("uploads/" ++ env.sessionId ++ "/gallery.html") "text/html"
      (galleryHtml []) ∈ (upload_multiple_images_to_s3 env files bucket).1 ∧
  galleryHtml [] = htmlHead ++ htmlFoot ∧
  streamlitReport (some u) = true

/-- Claim C10: even when every per-file upload fails (every
`create_multipart_upload` raises, so `image_links` stays empty),
`upload_multiple_images_to_s3` still renders and uploads a `gallery.html`
containing no image entries and returns its pre-signed URL, so the UI reports
success. -/
theorem c10_empty_gallery (env : S3Env) (files : List UploadedFile)
    (bucket u : String)
    (h1 : ∀ i, isErr (env.fileEnv i).createResult = true)
    (h2 : env.galleryUpload = Except.ok ())
    (h3 : env.presignResult ("uploads/" ++ env.sessionId ++ "/gallery.html") =
      Except.ok u)
    (h4 : (u == "") = false) :
    C10Statement env files bucket u := by
  obtain ⟨hlinks, hres⟩ := loop_create_fail env bucket ("uploads/" ++ env.sessionId)
    h1 files 0 []
  have hgal : create_preview_html env
      (uploadLoop env bucket ("uploads/" ++ env.sessionId) files 0 []).2.1 bucket
      ("uploads/" ++ env.sessionId) =
      ([Ev.writeLocal "gallery.html",
        Ev.uploadFileEv "gallery.html" bucket
          ("uploads/" ++ env.sessionId ++ "/gallery.html") "text/html"
          (galleryHtml []),
        Ev.removeLocal "gallery.html"],
       Except.ok ("uploads/" ++ env.sessionId ++ "/gallery.html")) := by
    rw [hlinks]
    simp [create_preview_html, h2]
  have ht : upload_multiple_images_to_s3 env files bucket =
      (((uploadLoop env bucket ("uploads/" ++ env.sessionId) files 0 []).1 ++
          [Ev.writeLocal "gallery.html",
           Ev.uploadFileEv "gallery.html" bucket
             ("uploads/" ++ env.sessionId ++ "/gallery.html") "text/html"
             (galleryHtml []),
           Ev.removeLocal "gallery.html"]) ++
        [Ev.presign bucket ("uploads/" ++ env.sessionId ++ "/gallery.html") 3600
          (some u)],
       Except.ok (some u)) := by
    simp only [upload_multiple_images_to_s3, hres, hgal, generate_presigned_url, h3]
  refine ⟨by rw [ht], ?_, rfl, ?_⟩
  · rw [ht]
    refine List.mem_append.mpr (Or.inl (List.mem_append.mpr (Or.inr ?_)))
    simp [List.mem_cons]
  · simp [streamlitReport, pyTruthyStr, h4]

def c10Env : S3Env :=
  ⟨fun _ => ⟨Except.error "down", fun _ => Except.error "down",
     Except.error "down", Except.ok ()⟩,
   fun _ => Except.ok "https://u", Except.ok (), "sid"⟩

theorem c10_empty_gallery_witness :
    (∀ i : Nat, isErr (c10Env.fileEnv i).createResult = true) ∧
    c10Env.galleryUpload = Except.ok () ∧
    c10Env.presignResult ("uploads/" ++ c10Env.sessionId ++ "/gallery.html") =
        Except.ok "https://u" ∧
    (("https://u" == "") = false) ∧
    C10Statement c10Env [⟨"a.png", [0]⟩] "bkt" "https://u" :=
  ⟨fun _ => rfl, rfl, rfl, rfl,
   c10_empty_gallery c10Env [⟨"a.png", [0]⟩] "bkt" "https://u"
     (fun _ => rfl) rfl rfl rfl⟩

end FaceDetection
